import Mathlib

set_option maxHeartbeats 1600000

/- Verification development for the mathematical problem classification
   service of the ai-tutor repository (classificationService.js and the
   classification batch route).  JavaScript strings are modelled as
   List Char, JavaScript regular expressions as an explicit regular
   expression AST matched with Brzozowski derivatives, and the numbers
   produced by the service as Nat (every quantity the service computes is a
   non-negative integer; the single floating point expression is discussed
   at its definition site).  The wall clock metadata field of the result is
   omitted: no claim mentions it. -/

/-- Characters treated as whitespace by the JavaScript regular expression
class for whitespace and by String.prototype.trim. -/
def wsChars : List Char :=
  [' ', '\t', '\n', '\x0b', '\x0c', '\r', '\u00a0', '\u1680', '\u2000',
   '\u2001', '\u2002', '\u2003', '\u2004', '\u2005', '\u2006', '\u2007',
   '\u2008', '\u2009', '\u200a', '\u2028', '\u2029', '\u202f', '\u205f',
   '\u3000', '\ufeff']

/-- Whitespace test for one character, as JavaScript classifies whitespace. -/
def isJsWs (c : Char) : Bool := decide (c ∈ wsChars)

/-- Model of String.prototype.toLowerCase restricted to the character ranges
this service exercises: ASCII capital letters and the Greek capital block
(the Greek letters appearing in the pattern tables all lower by adding 32 to
the code point).  Every other character maps to itself. -/
def jsToLower (c : Char) : Char :=
  if 65 ≤ c.toNat ∧ c.toNat ≤ 90 then Char.ofNat (c.toNat + 32)
  else if 0x391 ≤ c.toNat ∧ c.toNat ≤ 0x3a9 ∧ c.toNat ≠ 0x3a2 then
    Char.ofNat (c.toNat + 32)
  else c

/-- Lower-casing of a whole string (character list). -/
def jsLowerL (s : List Char) : List Char := s.map jsToLower

/-- Model of String.prototype.trim: drop whitespace from both ends. -/
def jsTrim (s : List Char) : List Char :=
  ((s.dropWhile isJsWs).reverse.dropWhile isJsWs).reverse

/-- Bool test that the first list is a prefix of the second. -/
def prefB : List Char → List Char → Bool
  | [], _ => true
  | _ :: _, [] => false
  | a :: as, b :: bs => a == b && prefB as bs

/-- Bool test that needle occurs somewhere inside hay, the semantics of
String.prototype.includes. -/
def hasSub (needle : List Char) : List Char → Bool
  | [] => prefB needle []
  | c :: rest => prefB needle (c :: rest) || hasSub needle rest

/-- Number of start positions at which needle occurs inside hay (overlapping
occurrences each count).  Used only by the claim-side per-occurrence scoring
definition. -/
def countOcc (needle : List Char) : List Char → Nat
  | [] => if prefB needle [] then 1 else 0
  | c :: rest => (if prefB needle (c :: rest) then 1 else 0) + countOcc needle rest

/-- Count of characters in the ASCII range a-z, the semantics of matching the
text against the lower-case letter class with the global flag and taking the
length. -/
def countAZ (s : List Char) : Nat :=
  s.countP (fun c => 97 ≤ c.toNat && c.toNat ≤ 122)

/-- Count of arithmetic operator characters, the semantics of the global
operator class match in analyzeComplexity. -/
def countOps (s : List Char) : Nat :=
  s.countP (fun c => decide (c ∈ ['+', '-', '*', '/', '^', '=', '<', '>']))

/-- Number of maximal whitespace runs scanned left to right; prevWs records
whether the previous character was whitespace. -/
def wsRunsAux (prevWs : Bool) : List Char → Nat
  | [] => 0
  | c :: rest =>
    (if (isJsWs c && !prevWs) = true then 1 else 0) + wsRunsAux (isJsWs c) rest

/-- Length of the array produced by splitting the text at maximal whitespace
runs, the semantics of String.prototype.split on the whitespace-run regular
expression: the result has one segment per gap around each maximal run, with
empty boundary segments kept, so its length is the number of maximal
whitespace runs plus one (also for the empty string, where split yields a
one-element array). -/
def wordCountJs (s : List Char) : Nat := wsRunsAux false s + 1

/-- Character class of a regular expression: a union of inclusive code point
ranges, possibly negated (negation models the dot, which accepts everything
except line terminators). -/
structure CClass where
  neg : Bool
  ranges : List (Char × Char)
deriving DecidableEq, Repr

/-- Membership of a character in a character class. -/
def ccMem (cls : CClass) (c : Char) : Bool :=
  let inR := cls.ranges.any (fun p => p.1.toNat ≤ c.toNat && c.toNat ≤ p.2.toNat)
  if cls.neg then !inR else inR

/-- Regular expression AST covering the constructs used by the service:
character classes, concatenation, alternation and Kleene star (the one-or-more
and counted repetitions of the source are expanded with concatenation). -/
inductive Regex
  | fail
  | eps
  | cc (cls : CClass)
  | cat (a b : Regex)
  | alt (a b : Regex)
  | star (a : Regex)
deriving DecidableEq, Repr

/-- Nullability: whether the regular expression accepts the empty string. -/
def nullable : Regex → Bool
  | .fail => false
  | .eps => true
  | .cc _ => false
  | .cat a b => nullable a && nullable b
  | .alt a b => nullable a || nullable b
  | .star _ => true

/-- Smart concatenation, pruning the absorbing and neutral elements. -/
def catS : Regex → Regex → Regex
  | .fail, _ => .fail
  | _, .fail => .fail
  | .eps, b => b
  | a, .eps => a
  | a, b => .cat a b

/-- Smart alternation, pruning the neutral element. -/
def altS : Regex → Regex → Regex
  | .fail, b => b
  | a, .fail => a
  | a, b => .alt a b

/-- Brzozowski derivative of a regular expression with respect to one
character. -/
def derivR : Regex → Char → Regex
  | .fail, _ => .fail
  | .eps, _ => .fail
  | .cc cls, c => if ccMem cls c = true then .eps else .fail
  | .cat a b, c =>
    if nullable a = true then altS (catS (derivR a c) b) (derivR b c)
    else catS (derivR a c) b
  | .alt a b, c => altS (derivR a c) (derivR b c)
  | .star a, c => catS (derivR a c) (.star a)

/-- Whole-string match via iterated derivatives. -/
def matchesB (r : Regex) (s : List Char) : Bool := nullable (s.foldl derivR r)

/-- Class matching a single given character. -/
def chrR (c : Char) : Regex := .cc ⟨false, [(c, c)]⟩

/-- Class matching one character from an inclusive range. -/
def rngR (lo hi : Char) : Regex := .cc ⟨false, [(lo, hi)]⟩

/-- Class matching one character from an explicit set. -/
def oneOf (cs : List Char) : Regex := .cc ⟨false, cs.map (fun c => (c, c))⟩

/-- Literal word: the concatenation of its characters. -/
def strR (cs : List Char) : Regex := cs.foldr (fun c r => .cat (chrR c) r) .eps

/-- Alternation of a list of branches, in order. -/
def altsR : List Regex → Regex
  | [] => .fail
  | [r] => r
  | r :: rest => .alt r (altsR rest)

/-- One-or-more repetition. -/
def plusR (r : Regex) : Regex := .cat r (.star r)

/-- Digit class. -/
def digitR : Regex := rngR '0' '9'

/-- Lower-case ASCII letter class. -/
def lowerR : Regex := rngR 'a' 'z'

/-- Whitespace class of JavaScript regular expressions. -/
def wsR : Regex := .cc ⟨false, wsChars.map (fun c => (c, c))⟩

/-- The dot of JavaScript regular expressions: any character except the four
line terminators. -/
def dotR : Regex :=
  .cc ⟨true, [('\n', '\n'), ('\r', '\r'), ('\u2028', '\u2028'), ('\u2029', '\u2029')]⟩

/-- Class accepting every character, used to embed searching into whole-string
matching. -/
def anyR : Regex := .cc ⟨true, []⟩

/-- A JavaScript regular expression as the service uses it: the AST, whether
the case-insensitive flag is set, and whether the expression is anchored at the
start of the string.  Case-insensitive expressions are written here with
lower-case literals and are tested against the lower-cased text, which agrees
with the JavaScript flag on the character ranges this service exercises. -/
structure JsRegex where
  re : Regex
  ci : Bool := false
  anch : Bool := false
deriving DecidableEq, Repr

/-- Semantics of RegExp.prototype.test: search for a match anywhere (or a
match starting at position zero when the expression is anchored). -/
def jsTest (r : JsRegex) (s : List Char) : Bool :=
  let t := if r.ci then s.map jsToLower else s
  if r.anch then matchesB (.cat r.re (.star anyR)) t
  else matchesB (.cat (.star anyR) (.cat r.re (.star anyR))) t

/-- Syntactic analysis used for the whitespace-only-input claim: when this
returns true, every string the expression accepts contains at least one
non-whitespace character. -/
def mustNonWs : Regex → Bool
  | .fail => true
  | .eps => false
  | .cc cls => decide (∀ c ∈ wsChars, ccMem cls c = false)
  | .cat a b => mustNonWs a || mustNonWs b
  | .alt a b => mustNonWs a && mustNonWs b
  | .star _ => false

/-- The six subject areas of SUBJECT_PATTERNS, in their declaration order. -/
inductive Subject
  | algebra
  | geometry
  | calculus
  | trigonometry
  | statistics
  | arithmetic
deriving DecidableEq, Repr

/-- Iteration order of Object.entries over SUBJECT_PATTERNS: the insertion
order of the six subject keys. -/
def SUBJECT_ORDER : List Subject :=
  [Subject.algebra, Subject.geometry, Subject.calculus,
   Subject.trigonometry, Subject.statistics, Subject.arithmetic]

/-- The key string of each subject. -/
def subjectName : Subject → String
  | Subject.algebra => "algebra"
  | Subject.geometry => "geometry"
  | Subject.calculus => "calculus"
  | Subject.trigonometry => "trigonometry"
  | Subject.statistics => "statistics"
  | Subject.arithmetic => "arithmetic"

/-- Keyword lists of SUBJECT_PATTERNS. -/
def keywords : Subject → List String
  | Subject.algebra =>
    ["solve for x", "equation", "variable", "linear", "quadratic", "polynomial",
     "factor", "expand", "simplify", "expression", "inequality",
     "system of equations", "slope", "y-intercept", "function", "domain",
     "range", "graph"]
  | Subject.geometry =>
    ["triangle", "circle", "rectangle", "square", "polygon", "angle", "area",
     "perimeter", "volume", "surface area", "radius", "diameter",
     "circumference", "parallel", "perpendicular", "congruent", "similar",
     "theorem", "proof", "coordinate", "distance", "midpoint", "slope",
     "pythagorean"]
  | Subject.calculus =>
    ["derivative", "integral", "limit", "continuous", "discontinuous",
     "differentiate", "integrate", "chain rule", "product rule",
     "quotient rule", "optimization", "maximum", "minimum", "critical point",
     "inflection", "convergence", "divergence", "series", "sequence"]
  | Subject.trigonometry =>
    ["sine", "cosine", "tangent", "sin", "cos", "tan", "cot", "sec", "csc",
     "radian", "degree", "unit circle", "periodic", "amplitude", "period",
     "phase shift", "frequency", "inverse", "identity"]
  | Subject.statistics =>
    ["mean", "median", "mode", "range", "variance", "standard deviation",
     "probability", "distribution", "normal", "binomial", "poisson",
     "correlation", "regression", "hypothesis", "confidence interval",
     "sample", "population", "z-score", "t-test"]
  | Subject.arithmetic =>
    ["add", "subtract", "multiply", "divide", "sum", "difference", "product",
     "quotient", "fraction", "decimal", "percent", "ratio", "proportion",
     "order of operations", "PEMDAS", "round", "estimate"]

/-- Symbol regular expression of each subject (the symbols field of
SUBJECT_PATTERNS).  Case-insensitive expressions are written with lower-case
literals, see JsRegex. -/
def symbols : Subject → JsRegex
  | Subject.algebra =>
    { re := altsR [oneOf ['x', 'y'],
                   .cat lowerR (.cat (.star wsR) (chrR '=')),
                   .cat lowerR (chrR '^'),
                   .cat (strR "solve".data) (.cat (plusR wsR) (strR "for".data)),
                   strR "linear".data,
                   strR "quadratic".data],
      ci := true }
  | Subject.geometry =>
    { re := altsR [chrR '°', chrR '∠', chrR '△', chrR '⊥', chrR '∥',
                   chrR '≅', chrR '∼', chrR 'π'] }
  | Subject.calculus =>
    { re := altsR [chrR '∫', chrR '∂', chrR '∇', strR "d/dx".data,
                   strR "lim".data, chrR '∞', chrR '∑', chrR '∏'] }
  | Subject.trigonometry =>
    { re := altsR [strR "sin".data, strR "cos".data, strR "tan".data,
                   strR "cot".data, strR "sec".data, strR "csc".data,
                   chrR 'θ', chrR 'φ', chrR 'α', chrR 'β'],
      ci := true }
  | Subject.statistics =>
    { re := altsR [chrR 'μ', chrR 'σ', .cat (chrR 'χ') (chrR '²'), chrR '∑',
                   .cat (chrR 'x') (chrR (Char.ofNat 0x304)),
                   strR "p(".data, strR "P(".data] }
  | Subject.arithmetic =>
    { re := altsR [chrR '+', chrR '-', chrR '×', chrR '÷', chrR '*',
                   chrR '/', chrR '%'] }

/-- Structural regular expressions of each subject (the patterns field of
SUBJECT_PATTERNS), in source order. -/
def patterns : Subject → List JsRegex
  | Subject.algebra =>
    [{ re := .cat (.star digitR) (.cat lowerR (.cat (.star wsR)
         (.cat (oneOf ['+', '-', '*', '/', '^']) (.cat (.star wsR)
           (.star digitR))))) },
     { re := .cat lowerR (.cat (.star wsR) (.cat (chrR '=')
         (.cat (.star wsR) (plusR digitR)))) },
     { re := .cat (chrR '(') (.cat lowerR (.cat (.star wsR)
         (.cat (oneOf ['+', '-']) (.cat (.star wsR)
           (.cat (plusR digitR) (chrR ')')))))) },
     { re := .cat lowerR (.cat (chrR '^') digitR) }]
  | Subject.geometry =>
    [{ re := .cat (plusR digitR) (.cat (.star wsR) (chrR '°')) },
     { re := altsR [.cat (strR "area".data) (.cat (.star wsR) (chrR '=')),
                    .cat (strR "perimeter".data) (.cat (.star wsR) (chrR '=')),
                    .cat (strR "volume".data) (.cat (.star wsR) (chrR '='))],
       ci := true },
     { re := .cat (plusR digitR) (.cat (.star wsR)
         (altsR [strR "cm".data, strR "mm".data, strR "m".data,
                 strR "ft".data, strR "in".data, strR "units".data])) },
     { re := altsR [strR "radius".data, strR "diameter".data,
                    strR "circumference".data],
       ci := true }]
  | Subject.calculus =>
    [{ re := .cat (chrR 'd') (.cat (chrR '/') (.cat (chrR 'd') lowerR)) },
     { re := .cat (chrR '∫') (.cat (.star dotR) (.cat (chrR 'd') lowerR)) },
     { re := .cat (strR "lim".data) (.cat (.star dotR) (chrR '→')) },
     { re := .cat lowerR (chrR '\'') }]
  | Subject.trigonometry =>
    [{ re := altsR [strR "sin(".data, strR "cos(".data, strR "tan(".data],
       ci := true },
     { re := altsR [.cat (plusR digitR) (.cat (.star wsR) (chrR '°')),
                    .cat (plusR digitR) (.cat (.star wsR) (strR "rad".data))] },
     { re := altsR [.cat (chrR 'π') (.cat (chrR '/') (plusR digitR)),
                    .cat (.star digitR) (chrR 'π')] }]
  | Subject.statistics =>
    [{ re := altsR [.cat (plusR digitR) (chrR '%'),
                    .cat (plusR digitR) (.cat (chrR '.')
                      (.cat (plusR digitR) (chrR '%')))] },
     { re := altsR [strR "probability".data, strR "p(".data], ci := true },
     { re := altsR [strR "mean".data, strR "median".data, strR "mode".data,
                    strR "std".data],
       ci := true }]
  | Subject.arithmetic =>
    [{ re := .cat (plusR digitR) (.cat (.star wsR)
         (.cat (oneOf ['+', '-', '×', '÷', '*', '/']) (.cat (.star wsR)
           (plusR digitR)))),
       anch := true },
     { re := .cat (plusR digitR) (.cat (chrR '/') (plusR digitR)) },
     { re := .cat (plusR digitR) (.cat (chrR '.') (plusR digitR)) },
     { re := .cat (plusR digitR) (chrR '%') }]

/-- High powers indicator of assessDifficulty: a caret followed by a digit in
the range 3 to 9, or a caret followed by two digits. -/
def reHighPowers : JsRegex :=
  { re := altsR [.cat (chrR '^') (rngR '3' '9'),
                 .cat (chrR '^') (.cat digitR digitR)] }

/-- Root symbols indicator of assessDifficulty. -/
def reRoots : JsRegex := { re := altsR [chrR '√', chrR '∛', chrR '∜'] }

/-- Calculus operator indicator of assessDifficulty. -/
def reCalcOps : JsRegex := { re := altsR [chrR '∫', chrR '∂', strR "lim".data] }

/-- Trigonometric function name indicator of assessDifficulty. -/
def reTrigNames : JsRegex :=
  { re := altsR [strR "sin".data, strR "cos".data, strR "tan".data], ci := true }

/-- Logarithm indicator of assessDifficulty. -/
def reLogs : JsRegex := { re := altsR [strR "log".data, strR "ln".data], ci := true }

/-- Matrix and determinant indicator of assessDifficulty. -/
def reMatrixDet : JsRegex :=
  { re := altsR [strR "matrix".data, strR "determinant".data], ci := true }

/-- System of equations indicator of assessDifficulty. -/
def reSystemEq : JsRegex :=
  { re := .cat (strR "system".data) (.cat (.star dotR) (strR "equation".data)),
    ci := true }

/-- Optimization vocabulary indicator of assessDifficulty. -/
def reOptimization : JsRegex :=
  { re := altsR [strR "optimization".data, strR "maximize".data,
                 strR "minimize".data],
    ci := true }

/-- The complexityIndicators table of assessDifficulty, in source order, each
with its point value. -/
def complexityIndicators : List (JsRegex × Nat) :=
  [(reHighPowers, 2), (reRoots, 1), (reCalcOps, 3), (reTrigNames, 1),
   (reLogs, 2), (reMatrixDet, 2), (reSystemEq, 1), (reOptimization, 2)]

/-- The subjectBaseDifficulty lookup of assessDifficulty; an unknown subject
key falls through to 3. -/
def subjectBaseDifficulty (subject : String) : Nat :=
  if subject = "arithmetic" then 2
  else if subject = "algebra" then 4
  else if subject = "geometry" then 5
  else if subject = "trigonometry" then 6
  else if subject = "statistics" then 6
  else if subject = "calculus" then 8
  else 3

/-- The assessDifficulty function: base difficulty by subject, plus the
points of every matching complexity indicator, plus word count bonuses,
clamped into the range one to ten. -/
def assessDifficulty (text : List Char) (subject : String) : Nat :=
  let d0 := subjectBaseDifficulty subject
  let d1 := complexityIndicators.foldl
    (fun d ind => if jsTest ind.1 text = true then d + ind.2 else d) d0
  let wc := wordCountJs text
  let d2 := if 50 < wc then d1 + 1 else d1
  let d3 := if 100 < wc then d2 + 1 else d2
  min 10 (max 1 d3)

/-- The highSchoolSubjects list of detectGradeLevel. -/
def highSchoolSubjects : List String := ["calculus", "trigonometry", "statistics"]

/-- The advancedMiddleSchool structural patterns of detectGradeLevel, in
source order. -/
def advancedMiddleSchool : List JsRegex :=
  [{ re := altsR [strR "quadratic".data, strR "polynomial".data], ci := true },
   { re := .cat (strR "system".data) (.cat (.star dotR) (strR "equation".data)),
     ci := true },
   { re := .cat (strR "coordinate".data) (.cat (.star dotR) (strR "plane".data)),
     ci := true },
   { re := .cat (strR "slope".data) (.cat (.star dotR) (strR "intercept".data)),
     ci := true }]

/-- Grade level record returned by detectGradeLevel; the error fallback path
builds one without a reasoning field, modelled as none. -/
structure GradeLevel where
  level : String
  range : Nat × Nat
  confidence : Nat
  reasoning : Option String
deriving DecidableEq, Repr

/-- The detectGradeLevel function: an ordered three-rule decision list. -/
def detectGradeLevel (text : List Char) (subject : String) (difficulty : Nat) :
    GradeLevel :=
  if highSchoolSubjects.contains subject = true ∨ 7 ≤ difficulty then
    { level := "highSchool", range := (9, 12), confidence := 85,
      reasoning := some (subject ++ " and difficulty " ++ toString difficulty
        ++ " indicate high school level") }
  else if advancedMiddleSchool.any (fun p => jsTest p text) = true ∨ 5 ≤ difficulty then
    { level := "highSchool", range := (9, 12), confidence := 70,
      reasoning := some "Advanced concepts suggest high school level" }
  else
    { level := "middleSchool", range := (6, 8), confidence := 75,
      reasoning := some
        "Basic concepts and moderate difficulty suggest middle school level" }

/-- Complexity record of analyzeComplexity; the error fallback path builds
one carrying only score and factors, so the three counts are optional. -/
structure Complexity where
  score : Nat
  factors : List String
  variableCount : Option Nat
  operationCount : Option Nat
  wordCount : Option Nat
deriving DecidableEq, Repr

/-- The advancedConcepts table of analyzeComplexity, in source order, each
with its factor label.  None of these expressions carries the
case-insensitive flag. -/
def advancedConcepts : List (JsRegex × String) :=
  [({ re := altsR [strR "derivative".data, strR "integral".data] },
    "calculus concepts"),
   ({ re := altsR [strR "matrix".data, strR "determinant".data] },
    "linear algebra"),
   ({ re := altsR [strR "probability".data, strR "statistics".data] },
    "statistical analysis"),
   ({ re := altsR [strR "optimization".data, strR "constraint".data] },
    "optimization problems"),
   ({ re := altsR [strR "proof".data, strR "theorem".data] },
    "mathematical proofs")]

/-- The analyzeComplexity function, accumulating a factor list and a score in
source order and clamping the score to at most ten. -/
def analyzeComplexity (text : List Char) : Complexity :=
  let nVars := countAZ text
  let nOps := countOps text
  let st1 : List String × Nat :=
    if 5 < nVars then (["multiple variables"], 1 + 2) else ([], 1)
  let st2 :=
    if 10 < nOps then (st1.1 ++ ["multiple operations"], st1.2 + 1) else st1
  let st3 := advancedConcepts.foldl
    (fun st con => if jsTest con.1 text = true then (st.1 ++ [con.2], st.2 + 2)
                   else st) st2
  let wc := wordCountJs text
  let st4 := if 100 < wc then (st3.1 ++ ["lengthy word problem"], st3.2 + 1) else st3
  { score := min 10 st4.2,
    factors := if st4.1 = [] then ["basic problem"] else st4.1,
    variableCount := some nVars,
    operationCount := some nOps,
    wordCount := some wc }

/-- Per-subject score of the classification loop body: two points for each
keyword of the subject found in the lower-cased trimmed text, a three point
bonus when the symbol expression matches the original-case text, and one
point for each structural expression matching the original-case text. -/
def subjectScore (sub : Subject) (textLower problemText : List Char) : Nat :=
  let s1 := (keywords sub).foldl
    (fun sc kw => if hasSub (jsLowerL kw.data) textLower = true then sc + 2 else sc) 0
  let s2 := if jsTest (symbols sub) problemText = true then s1 + 3 else s1
  (patterns sub).foldl
    (fun sc p => if jsTest p problemText = true then sc + 1 else sc) s2

/-- The subjectScores object built by the classification loop: one entry per
subject in iteration order. -/
def subjectScoresOf (textLower problemText : List Char) : List (Subject × Nat) :=
  SUBJECT_ORDER.map (fun sub => (sub, subjectScore sub textLower problemText))

/-- The running best of the classification loop: starting from arithmetic
with a maximum of zero, replace the best pair whenever a strictly greater
score appears. -/
def pickPrimary (scores : List (Subject × Nat)) : Subject × Nat :=
  scores.foldl (fun acc p => if acc.2 < p.2 then p else acc)
    (Subject.arithmetic, 0)

/-- The classification result.  The fields mirror the object literals of
classifyProblem; subjectScores keeps the key insertion order of the
JavaScript object, error is present only on the fallback path, and the wall
clock metadata is omitted. -/
structure ClassificationResult where
  primarySubject : Subject
  subjectScores : List (Subject × Nat)
  difficulty : Nat
  gradeLevel : GradeLevel
  complexity : Complexity
  confidence : Nat
  error : Option String
deriving DecidableEq, Repr

/-- The default classification returned when classifyProblem catches an
error. -/
def fallbackResult : ClassificationResult :=
  { primarySubject := Subject.arithmetic,
    subjectScores := [(Subject.arithmetic, 1)],
    difficulty := 5,
    gradeLevel := { level := "unknown", range := (6, 12), confidence := 0,
                    reasoning := none },
    complexity := { score := 5, factors := ["unknown"], variableCount := none,
                    operationCount := none, wordCount := none },
    confidence := 0,
    error := some "Problem text is required for classification" }

/-- The body of the try block of classifyProblem for a non-empty string
input.  The confidence expression of the source is
round(min(100, (maxScore / 10) * 100)) over floating point numbers; for a
natural number maxScore this equals min 100 (10 * maxScore) exactly (the
quotient times one hundred is within one part in 2 to the 51 of the integer
ten times maxScore, so rounding recovers it, and min is exact), which is the
form used here. -/
def classifySuccess (s : String) : ClassificationResult :=
  let problemText := s.data
  let textLower := jsTrim (jsLowerL problemText)
  let scores := subjectScoresOf textLower problemText
  let pick := pickPrimary scores
  let difficulty := assessDifficulty problemText (subjectName pick.1)
  let gradeLevel := detectGradeLevel problemText (subjectName pick.1) difficulty
  let complexity := analyzeComplexity problemText
  { primarySubject := pick.1,
    subjectScores := scores,
    difficulty := difficulty,
    gradeLevel := gradeLevel,
    complexity := complexity,
    confidence := min 100 (10 * pick.2),
    error := none }

/-- Argument of classifyProblem on which the function completes normally and
returns a classification: a string, or a nullish value (null or undefined,
the missing-argument cases).  Among strings only the empty string is falsy,
so validation rejects exactly nullish values and the empty string; for those
the logging call of the catch block is safe, because the optional chaining
of its substring call short-circuits on nullish values and the call works on
strings.  Every other JavaScript value makes the catch block itself throw:
see JsValue and classifyProblemE for the full argument space. -/
inductive JsInput
  | str (s : String)
  | nullish
deriving DecidableEq, Repr

/-- The classifyProblem entry operation on the arguments for which the
source returns a result: validation failure (a nullish value or the empty
string) takes the catch path and returns the default classification, and
every non-empty string is classified by the try block body.  The throwing
path for the remaining argument values is modelled by classifyProblemE. -/
def classifyProblem (input : JsInput) : ClassificationResult :=
  match input with
  | JsInput.nullish => fallbackResult
  | JsInput.str s => if s = "" then fallbackResult else classifySuccess s

/-- Any JavaScript value passed as problem text: a string, a nullish value
(null or undefined), or any other non-string value such as a number,
boolean, object or array. -/
inductive JsValue
  | str (s : String)
  | nullish
  | otherNonString
deriving DecidableEq, Repr

/-- Observable behaviour of classifyProblem over the full argument space,
a thrown exception modelled as an error value.  For a string or a nullish
argument the function returns normally.  For every other value the
validation throw is caught, but the catch block evaluates the optional
chaining call problemText?.substring(0, 100) for its log payload, and
optional chaining guards only null and undefined: on a number, boolean,
object or array the substring member is undefined and the call throws a
TypeError that escapes classifyProblem. -/
def classifyProblemE : JsValue → Except String ClassificationResult
  | JsValue.str s => Except.ok (classifyProblem (JsInput.str s))
  | JsValue.nullish => Except.ok (classifyProblem JsInput.nullish)
  | JsValue.otherNonString =>
    Except.error "problemText.substring is not a function"

/-- Score of one subject inside a score list, as reading the JavaScript
subjectScores object at that key. -/
def scoreOf (scores : List (Subject × Nat)) (sub : Subject) : Nat :=
  ((scores.find? (fun p => decide (p.1 = sub))).map Prod.snd).getD 0

/-- Score of one subject inside a classification result. -/
def lookupScore (r : ClassificationResult) (sub : Subject) : Nat :=
  scoreOf r.subjectScores sub

/-- Maximum of the scores recorded in a score list, zero when empty. -/
def maxScoresList (scores : List (Subject × Nat)) : Nat :=
  (scores.map Prod.snd).foldl max 0

/-- One result entry of the batch route.  The success false shape of the
per-item catch block is kept in the record type for faithfulness to the
object literals of the source, but no reachable input ever produces it: the
catch block itself throws on every entry that makes the try block throw,
see batchItem. -/
structure BatchEntry where
  index : Nat
  success : Bool
  classification : Option ClassificationResult
  error : Option String
deriving DecidableEq, Repr

/-- Result entry of the batch route for a string problem text:
classifyProblem never throws on a string and the substring call on a string
is safe, so the per-item try block always completes with success true.  Only
strings produce entries: see batchItem for the other values. -/
def batchEntry (i : Nat) (s : String) : BatchEntry :=
  { index := i, success := true,
    classification := some (classifyProblem (JsInput.str s)), error := none }

/-- The per-item body of the batch route map over the full value space, a
thrown exception modelled as an error value.  A nullish entry survives
classifyProblem (which returns the fallback), but the substring call of the
try block throws on it, and the per-item catch block then evaluates
problemText.substring(0, 100) itself, without optional chaining, so the
catch throws as well; for any other non-string entry classifyProblem throws
and the catch block rethrows the same way.  Either way the exception escapes
the map callback.  The error strings stand for the engine TypeError
messages. -/
def batchItem (i : Nat) (v : JsValue) : Except String BatchEntry :=
  match v with
  | JsValue.str s => Except.ok (batchEntry i s)
  | JsValue.nullish => Except.error "Cannot read properties of null"
  | JsValue.otherNonString =>
    Except.error "problemText.substring is not a function"

/-- The indexed map of the batch route with JavaScript exception semantics:
the first throwing item aborts the whole map. -/
def batchMapFrom (i : Nat) : List JsValue → Except String (List BatchEntry)
  | [] => Except.ok []
  | v :: rest =>
    match batchItem i v with
    | Except.error e => Except.error e
    | Except.ok entry =>
      match batchMapFrom (i + 1) rest with
      | Except.error e => Except.error e
      | Except.ok es => Except.ok (entry :: es)

/-- The batch route: reject an empty array or more than fifty problems,
otherwise map the per-item body over the array with its indices; an
exception escaping the map is answered by the route level catch with the
fixed batch failure message (the 500 response). -/
def classifyBatch (problems : List JsValue) : Except String (List BatchEntry) :=
  if problems.length = 0 then Except.error "Problems array is required"
  else if 50 < problems.length then
    Except.error "Maximum 50 problems allowed per batch"
  else
    match batchMapFrom 0 problems with
    | Except.ok results => Except.ok results
    | Except.error _ => Except.error "Batch classification processing failed"

/-- Expected entry list of an all-string batch starting at an index. -/
def strEntries (i : Nat) : List String → List BatchEntry
  | [] => []
  | s :: rest => batchEntry i s :: strEntries (i + 1) rest

/-- Entry list of a batch response, empty for an error response. -/
def batchEntriesOf : Except String (List BatchEntry) → List BatchEntry
  | Except.ok es => es
  | Except.error _ => []

/-- Success flags of a batch response, in order. -/
def batchSuccesses (r : Except String (List BatchEntry)) : List Bool :=
  (batchEntriesOf r).map BatchEntry.success

/-- Claim-side subject score following the wording of claim C2: two points
for every occurrence of each keyword as a case-insensitive substring
(repeated occurrences each count), the same symbol bonus and structural
points as the code.  Clearly distinct from subjectScore, which follows the
source. -/
def specSubjectScore (sub : Subject) (problemText : List Char) : Nat :=
  let textLower := jsTrim (jsLowerL problemText)
  2 * ((keywords sub).foldl (fun n kw => n + countOcc (jsLowerL kw.data) textLower) 0)
    + (if jsTest (symbols sub) problemText = true then 3 else 0)
    + (patterns sub).countP (fun p => jsTest p problemText)

/-- Claim-side maximum subject score: the greatest of the six scores. -/
def specMaxScore (score : Subject → Nat) : Nat :=
  (SUBJECT_ORDER.map score).foldl max 0

/-- Claim-side primary subject following the wording of claim C3: the first
subject in the fixed iteration order whose score equals the maximum, and
arithmetic when the maximum is zero. -/
def specPrimarySubject (score : Subject → Nat) : Subject :=
  if specMaxScore score = 0 then Subject.arithmetic
  else if score Subject.algebra = specMaxScore score then Subject.algebra
  else if score Subject.geometry = specMaxScore score then Subject.geometry
  else if score Subject.calculus = specMaxScore score then Subject.calculus
  else if score Subject.trigonometry = specMaxScore score then Subject.trigonometry
  else if score Subject.statistics = specMaxScore score then Subject.statistics
  else Subject.arithmetic

/-- A regular expression every accepted word of which must contain a
non-whitespace character does not accept the empty word. -/
theorem mustNonWs_nullable {r : Regex} (h : mustNonWs r = true) :
    nullable r = false := by
  induction r with
  | fail => rfl
  | eps => simp [mustNonWs] at h
  | cc cls => rfl
  | cat a b iha ihb =>
    simp only [mustNonWs, Bool.or_eq_true] at h
    rcases h with h | h
    · simp [nullable, iha h]
    · simp [nullable, ihb h]
  | alt a b iha ihb =>
    simp only [mustNonWs, Bool.and_eq_true] at h
    simp [nullable, iha h.1, ihb h.2]
  | star a iha => simp [mustNonWs] at h

/-- Smart concatenation preserves the non-whitespace requirement coming from
either side. -/
theorem mustNonWs_catS {a b : Regex}
    (h : mustNonWs a = true ∨ mustNonWs b = true) :
    mustNonWs (catS a b) = true := by
  cases a <;> cases b <;> simp_all [catS, mustNonWs]

/-- Smart alternation preserves the non-whitespace requirement when both
sides have it. -/
theorem mustNonWs_altS {a b : Regex} (ha : mustNonWs a = true)
    (hb : mustNonWs b = true) : mustNonWs (altS a b) = true := by
  cases a <;> cases b <;> simp_all [altS, mustNonWs]

/-- Taking the derivative with respect to a whitespace character preserves
the non-whitespace requirement. -/
theorem mustNonWs_derivR {r : Regex} {c : Char} (hw : isJsWs c = true)
    (h : mustNonWs r = true) : mustNonWs (derivR r c) = true := by
  induction r with
  | fail => rfl
  | eps => rfl
  | cc cls =>
    simp only [mustNonWs, decide_eq_true_eq] at h
    have hc : c ∈ wsChars := of_decide_eq_true hw
    simp [derivR, h c hc, mustNonWs]
  | cat a b iha ihb =>
    simp only [mustNonWs, Bool.or_eq_true] at h
    by_cases hn : nullable a = true
    · rcases h with h | h
      · rw [mustNonWs_nullable h] at hn
        exact absurd hn (by simp)
      · simp only [derivR, hn, if_pos]
        exact mustNonWs_altS (mustNonWs_catS (Or.inr h)) (ihb h)
    · simp only [derivR, hn, if_neg, ite_false]
      rcases h with h | h
      · exact mustNonWs_catS (Or.inl (iha h))
      · exact mustNonWs_catS (Or.inr h)
  | alt a b iha ihb =>
    simp only [mustNonWs, Bool.and_eq_true] at h
    exact mustNonWs_altS (iha h.1) (ihb h.2)
  | star a iha => simp [mustNonWs] at h

/-- A regular expression requiring a non-whitespace character rejects every
string made of whitespace only. -/
theorem matchesB_ws {s : List Char} {r : Regex} (hm : mustNonWs r = true)
    (hs : ∀ c ∈ s, isJsWs c = true) : matchesB r s = false := by
  induction s generalizing r with
  | nil => simpa [matchesB, List.foldl] using mustNonWs_nullable hm
  | cons c rest ih =>
    have hstep : matchesB r (c :: rest) = matchesB (derivR r c) rest := rfl
    rw [hstep]
    exact ih (mustNonWs_derivR (hs c (List.mem_cons_self c rest)) hm)
      (fun x hx => hs x (List.mem_cons_of_mem c hx))

/-- Lower-casing fixes every whitespace character. -/
theorem jsToLower_ws {c : Char} (h : isJsWs c = true) : jsToLower c = c := by
  have hc : c ∈ wsChars := of_decide_eq_true h
  fin_cases hc <;> rfl

/-- Lower-casing fixes a whitespace-only string. -/
theorem jsLowerL_ws {s : List Char} (hs : ∀ c ∈ s, isJsWs c = true) :
    jsLowerL s = s := by
  induction s with
  | nil => rfl
  | cons c t ih =>
    have h1 := jsToLower_ws (hs c (List.mem_cons_self c t))
    have h2 := ih (fun x hx => hs x (List.mem_cons_of_mem c hx))
    simp only [jsLowerL, List.map_cons] at h2 ⊢
    rw [h1, h2]

/-- Trimming a whitespace-only string yields the empty string. -/
theorem jsTrim_ws {s : List Char} (hs : ∀ c ∈ s, isJsWs c = true) :
    jsTrim s = [] := by
  have h1 : s.dropWhile isJsWs = [] := List.dropWhile_eq_nil_iff.mpr hs
  simp [jsTrim, h1]

/-- The test of a regular expression requiring a non-whitespace character is
false on every whitespace-only string. -/
theorem jsTest_ws (r : JsRegex) (hr : mustNonWs r.re = true) {s : List Char}
    (hs : ∀ c ∈ s, isJsWs c = true) : jsTest r s = false := by
  simp only [jsTest]
  have ht : ∀ c ∈ (if r.ci then s.map jsToLower else s), isJsWs c = true := by
    split
    · intro c hc
      rcases List.mem_map.mp hc with ⟨x, hx, rfl⟩
      rw [jsToLower_ws (hs x hx)]
      exact hs x hx
    · exact hs
  split
  · exact matchesB_ws (by simp [mustNonWs, hr]) ht
  · exact matchesB_ws (by simp [mustNonWs, hr]) ht

/-- After a whitespace character, a whitespace-only suffix contributes no
further whitespace run. -/
theorem wsRunsAux_ws_true {s : List Char} (hs : ∀ c ∈ s, isJsWs c = true) :
    wsRunsAux true s = 0 := by
  induction s with
  | nil => rfl
  | cons c t ih =>
    have hc := hs c (List.mem_cons_self c t)
    simp only [wsRunsAux, hc, Bool.and_false, Bool.not_true]
    simpa using ih (fun x hx => hs x (List.mem_cons_of_mem c hx))

/-- Splitting a non-empty whitespace-only string at whitespace runs yields
two empty boundary segments. -/
theorem wordCountJs_ws {s : List Char} (hne : s ≠ [])
    (hs : ∀ c ∈ s, isJsWs c = true) : wordCountJs s = 2 := by
  cases s with
  | nil => exact absurd rfl hne
  | cons c t =>
    have hc := hs c (List.mem_cons_self c t)
    have ht := wsRunsAux_ws_true (fun x hx => hs x (List.mem_cons_of_mem c hx))
    simp [wordCountJs, wsRunsAux, hc, ht]

/-- A fold adding a fixed number of points for every list element passing a
test counts the passing elements. -/
theorem foldl_if_add {α : Type} (f : α → Bool) (k : Nat) (l : List α) (n : Nat) :
    l.foldl (fun sc a => if f a = true then sc + k else sc) n
      = n + k * l.countP f := by
  induction l generalizing n with
  | nil => simp
  | cons a t ih =>
    by_cases h : f a = true <;>
      simp [List.foldl_cons, List.countP_cons, h, ih] <;> ring

/-- A fold adding the point value of every matching indicator equals the sum
of the matched point values. -/
theorem foldl_inds (text : List Char) (l : List (JsRegex × Nat)) (n : Nat) :
    l.foldl (fun d ind => if jsTest ind.1 text = true then d + ind.2 else d) n
      = n + (l.map (fun ind => if jsTest ind.1 text = true then ind.2 else 0)).sum := by
  induction l generalizing n with
  | nil => simp
  | cons a t ih =>
    by_cases h : jsTest a.1 text = true <;>
      simp [List.foldl_cons, h, ih] <;> omega

/-- Closed form of the per-subject score: twice the number of keywords
present, plus the symbol bonus, plus the number of matching structural
expressions. -/
theorem subjectScore_closed (sub : Subject) (tl pt : List Char) :
    subjectScore sub tl pt
      = 2 * (keywords sub).countP (fun kw => hasSub (jsLowerL kw.data) tl)
        + (if jsTest (symbols sub) pt = true then 3 else 0)
        + (patterns sub).countP (fun p => jsTest p pt) := by
  unfold subjectScore
  rw [foldl_if_add (fun kw => hasSub (jsLowerL kw.data) tl) 2 (keywords sub) 0,
      foldl_if_add (fun p => jsTest p pt) 1 (patterns sub)]
  split_ifs <;> omega

/-- Reading the score object of the classification loop at a subject key
gives the per-subject score. -/
theorem scoreOf_subjectScoresOf (tl pt : List Char) (sub : Subject) :
    scoreOf (subjectScoresOf tl pt) sub = subjectScore sub tl pt := by
  cases sub <;> rfl

/-- The running maximum of a fold over pair scores never drops below its
start value. -/
theorem le_foldl_maxP (l : List (Subject × Nat)) (m : Nat) :
    m ≤ l.foldl (fun m p => max m p.2) m := by
  induction l generalizing m with
  | nil => exact le_refl m
  | cons p t ih =>
    simp only [List.foldl_cons]
    exact le_trans (le_max_left m p.2) (ih (max m p.2))

/-- The second component of the classification loop fold is the maximum of
the start value and all scores of the list. -/
theorem foldPick_snd (l : List (Subject × Nat)) (acc : Subject × Nat) :
    (l.foldl (fun acc p => if acc.2 < p.2 then p else acc) acc).2
      = l.foldl (fun m p => max m p.2) acc.2 := by
  induction l generalizing acc with
  | nil => rfl
  | cons p t ih =>
    simp only [List.foldl_cons]
    rw [ih]
    by_cases h : acc.2 < p.2
    · rw [if_pos h]; congr 1; omega
    · rw [if_neg h]; congr 1; omega

/-- Characterization of the first component of the classification loop fold:
when some score strictly exceeds the start value the fold keeps the first
entry attaining the overall maximum, otherwise it keeps the start entry. -/
theorem foldPick_fst (l : List (Subject × Nat)) (M : Nat) :
    ∀ acc : Subject × Nat, l.foldl (fun m p => max m p.2) acc.2 = M →
    ((acc.2 < M →
      (l.find? (fun p => decide (M ≤ p.2))).map Prod.fst
        = some (l.foldl (fun acc p => if acc.2 < p.2 then p else acc) acc).1) ∧
     (M ≤ acc.2 →
      (l.foldl (fun acc p => if acc.2 < p.2 then p else acc) acc).1 = acc.1)) := by
  induction l with
  | nil =>
    intro acc hM
    constructor
    · intro h
      simp only [List.foldl_nil] at hM
      omega
    · intro h
      rfl
  | cons p t ih =>
    intro acc hM
    simp only [List.foldl_cons] at hM
    have hacc2 : (if acc.2 < p.2 then p else acc).2 = max acc.2 p.2 := by
      by_cases h : acc.2 < p.2
      · rw [if_pos h]; omega
      · rw [if_neg h]; omega
    have hMt : t.foldl (fun m p => max m p.2) ((if acc.2 < p.2 then p else acc).2) = M := by
      rw [hacc2]; exact hM
    have hbound : max acc.2 p.2 ≤ M := by
      have := le_foldl_maxP t (max acc.2 p.2)
      omega
    obtain ⟨ih1, ih2⟩ := ih (if acc.2 < p.2 then p else acc) hMt
    constructor
    · intro hlt
      simp only [List.foldl_cons]
      by_cases hp : M ≤ p.2
      · have hpT : (fun q : Subject × Nat => decide (M ≤ q.2)) p = true := by
          simp [hp]
        rw [List.find?_cons_of_pos t hpT]
        have hif : (if acc.2 < p.2 then p else acc) = p := by
          rw [if_pos (by omega)]
        rw [hif] at ih2 ⊢
        rw [ih2 (by omega)]
        rfl
      · have hpF : ¬ ((fun q : Subject × Nat => decide (M ≤ q.2)) p = true) := by
          simp only [decide_eq_true_eq]
          omega
        rw [List.find?_cons_of_neg t hpF]
        exact ih1 (by omega)
    · intro hge
      simp only [List.foldl_cons]
      have hif : (if acc.2 < p.2 then p else acc) = acc := by
        rw [if_neg (by omega)]
      rw [hif] at ih2 ⊢
      exact ih2 (by omega)

/-- The second component of the classification loop best pair is the maximum
subject score. -/
theorem pickPrimary_snd (sc : Subject → Nat) :
    (pickPrimary (SUBJECT_ORDER.map (fun sub => (sub, sc sub)))).2
      = specMaxScore sc := by
  have h := foldPick_snd (SUBJECT_ORDER.map (fun sub => (sub, sc sub)))
    (Subject.arithmetic, 0)
  simp only [pickPrimary]
  rw [h]
  rfl

/-- Unfolding step for find? with the predicate passed explicitly. -/
theorem find?_consP (p : Subject × Nat → Bool) (a : Subject × Nat)
    (l : List (Subject × Nat)) :
    List.find? p (a :: l) = if p a = true then some a else List.find? p l := by
  by_cases h : p a = true
  · rw [if_pos h]; exact List.find?_cons_of_pos l h
  · rw [if_neg h]; exact List.find?_cons_of_neg l h

/-- The first component of the classification loop best pair is the first
subject in iteration order reaching the maximum score, arithmetic when the
maximum is zero. -/
theorem pickPrimary_fst (sc : Subject → Nat) :
    (pickPrimary (SUBJECT_ORDER.map (fun sub => (sub, sc sub)))).1
      = specPrimarySubject sc := by
  have hM : (SUBJECT_ORDER.map (fun sub => (sub, sc sub))).foldl
      (fun m p => max m p.2) ((Subject.arithmetic, 0) : Subject × Nat).2
      = specMaxScore sc := rfl
  obtain ⟨h1, h2⟩ := foldPick_fst (SUBJECT_ORDER.map (fun sub => (sub, sc sub)))
    (specMaxScore sc) (Subject.arithmetic, 0) hM
  have hchain : specMaxScore sc
      = max (max (max (max (max (max 0 (sc Subject.algebra)) (sc Subject.geometry))
          (sc Subject.calculus)) (sc Subject.trigonometry)) (sc Subject.statistics))
          (sc Subject.arithmetic) := by
    simp [specMaxScore, SUBJECT_ORDER]
  by_cases hz : specMaxScore sc = 0
  · have hres := h2 (by omega)
    simp only [pickPrimary]
    rw [hres]
    simp only [specPrimarySubject, if_pos hz]
  · have h1' := h1 (by omega)
    simp only [pickPrimary]
    simp only [SUBJECT_ORDER, List.map_cons, List.map_nil] at h1'
    rw [find?_consP, find?_consP, find?_consP, find?_consP, find?_consP,
      find?_consP, List.find?_nil] at h1'
    simp only [decide_eq_true_eq] at h1'
    simp only [specPrimarySubject, if_neg hz]
    by_cases c1 : sc Subject.algebra = specMaxScore sc
    · rw [if_pos (by omega)] at h1'
      simp only [Option.map_some'] at h1'
      rw [if_pos c1]
      exact (Option.some.inj h1').symm
    · rw [if_neg (by omega)] at h1'
      rw [if_neg c1]
      by_cases c2 : sc Subject.geometry = specMaxScore sc
      · rw [if_pos (by omega)] at h1'
        simp only [Option.map_some'] at h1'
        rw [if_pos c2]
        exact (Option.some.inj h1').symm
      · rw [if_neg (by omega)] at h1'
        rw [if_neg c2]
        by_cases c3 : sc Subject.calculus = specMaxScore sc
        · rw [if_pos (by omega)] at h1'
          simp only [Option.map_some'] at h1'
          rw [if_pos c3]
          exact (Option.some.inj h1').symm
        · rw [if_neg (by omega)] at h1'
          rw [if_neg c3]
          by_cases c4 : sc Subject.trigonometry = specMaxScore sc
          · rw [if_pos (by omega)] at h1'
            simp only [Option.map_some'] at h1'
            rw [if_pos c4]
            exact (Option.some.inj h1').symm
          · rw [if_neg (by omega)] at h1'
            rw [if_neg c4]
            by_cases c5 : sc Subject.statistics = specMaxScore sc
            · rw [if_pos (by omega)] at h1'
              simp only [Option.map_some'] at h1'
              rw [if_pos c5]
              exact (Option.some.inj h1').symm
            · rw [if_neg (by omega)] at h1'
              rw [if_neg c5]
              by_cases c6 : sc Subject.arithmetic = specMaxScore sc
              · rw [if_pos (by omega)] at h1'
                simp only [Option.map_some'] at h1'
                exact (Option.some.inj h1').symm
              · exact absurd hchain (by omega)

/-- The maximum recorded in the score object equals the maximum of the six
per-subject scores. -/
theorem maxScoresList_subjectScoresOf (tl pt : List Char) :
    maxScoresList (subjectScoresOf tl pt)
      = specMaxScore (fun sub => subjectScore sub tl pt) := rfl

/-- A non-empty string input takes the try block body. -/
theorem classifyProblem_str {s : String} (h : s ≠ "") :
    classifyProblem (JsInput.str s) = classifySuccess s := by
  simp [classifyProblem, h]

/-- Every subject symbol expression requires a non-whitespace character. -/
theorem symbols_mustNonWs (sub : Subject) : mustNonWs (symbols sub).re = true := by
  cases sub <;> decide

/-- Every subject structural expression requires a non-whitespace
character. -/
theorem patterns_mustNonWs (sub : Subject) :
    ∀ p ∈ patterns sub, mustNonWs p.re = true := by
  cases sub <;> intro p hp <;> fin_cases hp <;> decide

/-- Every difficulty indicator expression requires a non-whitespace
character. -/
theorem indicators_mustNonWs :
    ∀ pr ∈ complexityIndicators, mustNonWs pr.1.re = true := by
  intro pr hp
  fin_cases hp <;> decide

/-- Every advanced middle school expression requires a non-whitespace
character. -/
theorem advMS_mustNonWs : ∀ p ∈ advancedMiddleSchool, mustNonWs p.re = true := by
  intro p hp
  fin_cases hp <;> decide

/-- C1 counterexample: for a non-string argument other than null and
undefined (for instance the number 42), classifyProblem does not return a
ClassificationResult: the validation throw is caught, but the logging call
of the catch block throws a TypeError that escapes the function, so the
claim that every input value yields a result without throwing, with the
fallback for every non-string value, is false. -/
theorem c1_counterexample :
    classifyProblemE JsValue.otherNonString
      = Except.error "problemText.substring is not a function" := rfl

/-- C1 amended: for every string input (the empty string included) and for
missing input (null or undefined), classifyProblem returns a
ClassificationResult without throwing, and whenever the text is missing or
empty the returned result is the documented fallback value: primarySubject
arithmetic, difficulty 5, gradeLevel unknown with range six to twelve and
confidence zero, complexity score 5 with factors unknown, confidence 0, and
an error field carrying a human-readable description; for every other
non-string value the catch block rethrows a TypeError, so no result is
returned. -/
theorem c1_amended_nonthrowing_fallback (v : JsValue)
    (h : v = JsValue.nullish ∨ v = JsValue.str "") :
    classifyProblemE v = Except.ok fallbackResult ∧
    fallbackResult.primarySubject = Subject.arithmetic ∧
    fallbackResult.difficulty = 5 ∧
    fallbackResult.gradeLevel
      = { level := "unknown", range := (6, 12), confidence := 0,
          reasoning := none } ∧
    fallbackResult.complexity.score = 5 ∧
    fallbackResult.complexity.factors = ["unknown"] ∧
    fallbackResult.confidence = 0 ∧
    fallbackResult.error = some "Problem text is required for classification" ∧
    (∀ s : String, classifyProblemE (JsValue.str s)
        = Except.ok (classifyProblem (JsInput.str s))) ∧
    classifyProblemE JsValue.otherNonString
      = Except.error "problemText.substring is not a function" := by
  rcases h with rfl | rfl <;>
    exact ⟨rfl, rfl, rfl, rfl, rfl, rfl, rfl, rfl, fun s => rfl, rfl⟩

/-- Witness for the amended C1 at the empty string. -/
theorem c1_amended_nonthrowing_fallback_witness :
    classifyProblemE (JsValue.str "") = Except.ok fallbackResult :=
  (c1_amended_nonthrowing_fallback (JsValue.str "") (Or.inr rfl)).1

/-- C2 counterexample: on the input consisting of the keyword add written
twice, the per-occurrence score demanded by the claim is four for the
arithmetic subject, but the classification records two, because the code
awards the keyword bonus once per keyword present, not once per
occurrence. -/
theorem c2_counterexample :
    lookupScore (classifyProblem (JsInput.str "add add")) Subject.arithmetic
      ≠ specSubjectScore Subject.arithmetic "add add".data := by
  decide

/-- C2 amended: the score of each subject equals two points for every
keyword of the subject that occurs at least once as a case-insensitive
substring of the trimmed lower-cased text (binary per keyword, repeated
occurrences do not add points), plus a single binary bonus of three if the
symbol expression matches the original-case text, plus one for each
structural expression matching the original-case text. -/
theorem c2_amended_binary_keyword_score (s : String) (h : s ≠ "")
    (sub : Subject) :
    lookupScore (classifyProblem (JsInput.str s)) sub
      = 2 * (keywords sub).countP
            (fun kw => hasSub (jsLowerL kw.data) (jsTrim (jsLowerL s.data)))
        + (if jsTest (symbols sub) s.data = true then 3 else 0)
        + (patterns sub).countP (fun p => jsTest p s.data) := by
  rw [classifyProblem_str h]
  have h0 : lookupScore (classifySuccess s) sub
      = scoreOf (subjectScoresOf (jsTrim (jsLowerL s.data)) s.data) sub := rfl
  rw [h0, scoreOf_subjectScoresOf, subjectScore_closed]

/-- Witness for the amended C2 at a one-letter input. -/
theorem c2_amended_binary_keyword_score_witness :
    lookupScore (classifyProblem (JsInput.str "x")) Subject.algebra
      = 2 * (keywords Subject.algebra).countP
            (fun kw => hasSub (jsLowerL kw.data) (jsTrim (jsLowerL "x".data)))
        + (if jsTest (symbols Subject.algebra) "x".data = true then 3 else 0)
        + (patterns Subject.algebra).countP (fun p => jsTest p "x".data) :=
  c2_amended_binary_keyword_score "x" (by decide) Subject.algebra

/-- C3: for every non-empty string input, primarySubject is the first
subject under the fixed iteration order algebra, geometry, calculus,
trigonometry, statistics, arithmetic whose score equals the maximum score
(so a strictly highest score wins and ties go to the earlier subject), and
when the maximum score is zero primarySubject is arithmetic. -/
theorem c3_primary_subject_first_max (s : String) (h : s ≠ "") :
    (classifyProblem (JsInput.str s)).primarySubject
      = specPrimarySubject
          (fun sub => subjectScore sub (jsTrim (jsLowerL s.data)) s.data) := by
  rw [classifyProblem_str h]
  have h0 : (classifySuccess s).primarySubject
      = (pickPrimary (SUBJECT_ORDER.map (fun sub =>
          (sub, subjectScore sub (jsTrim (jsLowerL s.data)) s.data)))).1 := rfl
  rw [h0]
  exact pickPrimary_fst _

/-- Witness for C3 at a one-letter input. -/
theorem c3_primary_subject_first_max_witness :
    (classifyProblem (JsInput.str "x")).primarySubject
      = specPrimarySubject
          (fun sub => subjectScore sub (jsTrim (jsLowerL "x".data)) "x".data) :=
  c3_primary_subject_first_max "x" (by decide)

/-- C4: for every text and primary subject string, the difficulty equals the
per-subject base (arithmetic two, algebra four, geometry five, trigonometry
six, statistics six, calculus eight, otherwise three), plus the fixed binary
indicator points (high exponents two, roots one, calculus operators three,
trigonometric names one, logarithms two, matrix or determinant two, system
of equations one, optimization vocabulary two), plus one if the word count
exceeds fifty and a further one if it exceeds one hundred, clamped to the
inclusive range from one to ten, so difficulty is always between one and
ten. -/
theorem c4_difficulty_formula (text : List Char) (subject : String) :
    assessDifficulty text subject
      = min 10 (max 1 (subjectBaseDifficulty subject
        + ((if jsTest reHighPowers text = true then 2 else 0)
          + (if jsTest reRoots text = true then 1 else 0)
          + (if jsTest reCalcOps text = true then 3 else 0)
          + (if jsTest reTrigNames text = true then 1 else 0)
          + (if jsTest reLogs text = true then 2 else 0)
          + (if jsTest reMatrixDet text = true then 2 else 0)
          + (if jsTest reSystemEq text = true then 1 else 0)
          + (if jsTest reOptimization text = true then 2 else 0))
        + ((if 50 < wordCountJs text then 1 else 0)
          + (if 100 < wordCountJs text then 1 else 0)))) ∧
    1 ≤ assessDifficulty text subject ∧ assessDifficulty text subject ≤ 10 ∧
    subjectBaseDifficulty "arithmetic" = 2 ∧ subjectBaseDifficulty "algebra" = 4 ∧
    subjectBaseDifficulty "geometry" = 5 ∧
    subjectBaseDifficulty "trigonometry" = 6 ∧
    subjectBaseDifficulty "statistics" = 6 ∧
    subjectBaseDifficulty "calculus" = 8 ∧
    (subject ∉ ["arithmetic", "algebra", "geometry", "trigonometry",
        "statistics", "calculus"] →
      subjectBaseDifficulty subject = 3) := by
  have hmain : assessDifficulty text subject
      = min 10 (max 1 (subjectBaseDifficulty subject
        + ((if jsTest reHighPowers text = true then 2 else 0)
          + (if jsTest reRoots text = true then 1 else 0)
          + (if jsTest reCalcOps text = true then 3 else 0)
          + (if jsTest reTrigNames text = true then 1 else 0)
          + (if jsTest reLogs text = true then 2 else 0)
          + (if jsTest reMatrixDet text = true then 2 else 0)
          + (if jsTest reSystemEq text = true then 1 else 0)
          + (if jsTest reOptimization text = true then 2 else 0))
        + ((if 50 < wordCountJs text then 1 else 0)
          + (if 100 < wordCountJs text then 1 else 0)))) := by
    simp only [assessDifficulty]
    rw [foldl_inds]
    simp only [complexityIndicators, List.map_cons, List.map_nil,
      List.sum_cons, List.sum_nil]
    generalize (if jsTest reHighPowers text = true then (2:Nat) else 0) = i1
    generalize (if jsTest reRoots text = true then (1:Nat) else 0) = i2
    generalize (if jsTest reCalcOps text = true then (3:Nat) else 0) = i3
    generalize (if jsTest reTrigNames text = true then (1:Nat) else 0) = i4
    generalize (if jsTest reLogs text = true then (2:Nat) else 0) = i5
    generalize (if jsTest reMatrixDet text = true then (2:Nat) else 0) = i6
    generalize (if jsTest reSystemEq text = true then (1:Nat) else 0) = i7
    generalize (if jsTest reOptimization text = true then (2:Nat) else 0) = i8
    split_ifs <;> omega
  refine ⟨hmain, ?_, ?_, rfl, rfl, rfl, rfl, rfl, rfl, ?_⟩
  · rw [hmain]
    exact le_min (by norm_num) (le_max_left 1 _)
  · rw [hmain]
    exact Nat.min_le_left 10 _
  · intro hmem
    simp only [List.mem_cons, List.not_mem_nil, or_false, not_or] at hmem
    obtain ⟨n1, n2, n3, n4, n5, n6⟩ := hmem
    simp [subjectBaseDifficulty, n1, n2, n3, n4, n5, n6]

/-- Witness for C4 at a concrete text and an unrecognized subject string. -/
theorem c4_difficulty_formula_witness :
    subjectBaseDifficulty "unknownSubject" = 3 ∧
    1 ≤ assessDifficulty "x".data "unknownSubject" :=
  ⟨(c4_difficulty_formula "x".data "unknownSubject").2.2.2.2.2.2.2.2.2
     (by decide),
   (c4_difficulty_formula "x".data "unknownSubject").2.1⟩

/-- C5: the grade level classifier is the ordered three-rule decision list:
when the primary subject is calculus, trigonometry or statistics, or the
difficulty is at least seven, it returns highSchool with range nine to
twelve and confidence 85; otherwise when the text matches one of the four
advanced structural patterns or the difficulty is at least five, it returns
highSchool with range nine to twelve and confidence 70; otherwise it returns
middleSchool with range six to eight and confidence 75; and it never returns
unknown. -/
theorem c5_grade_level_rules (text : List Char) (subject : String)
    (difficulty : Nat) :
    ((highSchoolSubjects.contains subject = true ∨ 7 ≤ difficulty) →
      detectGradeLevel text subject difficulty
        = { level := "highSchool", range := (9, 12), confidence := 85,
            reasoning := some (subject ++ " and difficulty "
              ++ toString difficulty ++ " indicate high school level") }) ∧
    (¬(highSchoolSubjects.contains subject = true ∨ 7 ≤ difficulty) →
      (advancedMiddleSchool.any (fun p => jsTest p text) = true ∨ 5 ≤ difficulty) →
      detectGradeLevel text subject difficulty
        = { level := "highSchool", range := (9, 12), confidence := 70,
            reasoning := some "Advanced concepts suggest high school level" }) ∧
    (¬(highSchoolSubjects.contains subject = true ∨ 7 ≤ difficulty) →
      ¬(advancedMiddleSchool.any (fun p => jsTest p text) = true ∨ 5 ≤ difficulty) →
      detectGradeLevel text subject difficulty
        = { level := "middleSchool", range := (6, 8), confidence := 75,
            reasoning := some
              "Basic concepts and moderate difficulty suggest middle school level" }) ∧
    (detectGradeLevel text subject difficulty).level ≠ "unknown" := by
  refine ⟨?_, ?_, ?_, ?_⟩
  · intro h1
    simp only [detectGradeLevel, if_pos h1]
  · intro h1 h2
    simp only [detectGradeLevel, if_neg h1, if_pos h2]
  · intro h1 h2
    simp only [detectGradeLevel, if_neg h1, if_neg h2]
  · simp only [detectGradeLevel]
    split_ifs <;> simp

/-- Witness for C5 at the arithmetic subject with difficulty two on a
one-letter text: the third rule applies. -/
theorem c5_grade_level_rules_witness :
    detectGradeLevel "x".data "arithmetic" 2
      = { level := "middleSchool", range := (6, 8), confidence := 75,
          reasoning := some
            "Basic concepts and moderate difficulty suggest middle school level" } :=
  (c5_grade_level_rules "x".data "arithmetic" 2).2.2.1 (by decide) (by decide)

/-- C6 counterexample: on the empty string (the fallback path) the score
object contains only the arithmetic key, so the geometry key is absent. -/
theorem c6_counterexample :
    Subject.geometry ∉ (classifyProblem (JsInput.str "")).subjectScores.map Prod.fst := by
  decide

/-- C6 amended: on the success path (a non-empty string) the score object
contains exactly the six subject keys in iteration order with non-negative
integer values; on the reachable fallback path (a nullish value or the
empty string) it contains only the arithmetic key with value one; for any
other non-string input classifyProblem throws and returns no score object
at all. -/
theorem c6_amended_score_keys (inp : JsInput) :
    ((∃ s, inp = JsInput.str s ∧ s ≠ "") →
      (classifyProblem inp).subjectScores.map Prod.fst = SUBJECT_ORDER) ∧
    (∀ p ∈ (classifyProblem inp).subjectScores, 0 ≤ p.2) ∧
    ((inp = JsInput.nullish ∨ inp = JsInput.str "") →
      (classifyProblem inp).subjectScores = [(Subject.arithmetic, 1)]) ∧
    classifyProblemE JsValue.otherNonString
      = Except.error "problemText.substring is not a function" := by
  refine ⟨?_, ?_, ?_, rfl⟩
  · rintro ⟨s, rfl, hs⟩
    rw [classifyProblem_str hs]
    rfl
  · intro p _
    exact Nat.zero_le p.2
  · rintro (rfl | rfl) <;> rfl

/-- Witness for the amended C6 at a one-letter input. -/
theorem c6_amended_score_keys_witness :
    (classifyProblem (JsInput.str "x")).subjectScores.map Prod.fst
      = SUBJECT_ORDER :=
  (c6_amended_score_keys (JsInput.str "x")).1 ⟨"x", rfl, by decide⟩

/-- C7 counterexample: on the one-letter input consisting of a capital A,
the claim demands a variable count of one (the count in the lower-cased
text), but the code counts lower-case letters in the original-case text and
records zero. -/
theorem c7_counterexample :
    (classifyProblem (JsInput.str "A")).complexity.variableCount
      ≠ some (countAZ (jsLowerL "A".data)) := by
  decide

/-- C7 amended: for every non-empty string input, the returned variable
count equals the number of characters matching the lower-case letter class
in the original-case problem text, so upper-case letters are not counted. -/
theorem c7_amended_variable_count (s : String) (h : s ≠ "") :
    (classifyProblem (JsInput.str s)).complexity.variableCount
      = some (countAZ s.data) := by
  rw [classifyProblem_str h]
  rfl

/-- Witness for the amended C7 at a one-letter input. -/
theorem c7_amended_variable_count_witness :
    (classifyProblem (JsInput.str "x")).complexity.variableCount
      = some (countAZ "x".data) :=
  c7_amended_variable_count "x" (by decide)

/-- C8: for every non-empty string input, the overall confidence equals the
minimum of one hundred and ten times the winning score, where the winning
score is the maximum subject score; a winning score of ten or more yields
exactly one hundred, and below ten the confidence equals ten times the
winning score.  The floating point expression of the source, the rounding of
min(100, (maxScore / 10) * 100), equals this value exactly for every natural
number maxScore. -/
theorem c8_confidence_formula (s : String) (h : s ≠ "") :
    (classifyProblem (JsInput.str s)).confidence
      = min 100 (10 * maxScoresList (classifyProblem (JsInput.str s)).subjectScores) ∧
    (10 ≤ maxScoresList (classifyProblem (JsInput.str s)).subjectScores →
      (classifyProblem (JsInput.str s)).confidence = 100) ∧
    (maxScoresList (classifyProblem (JsInput.str s)).subjectScores < 10 →
      (classifyProblem (JsInput.str s)).confidence
        = 10 * maxScoresList (classifyProblem (JsInput.str s)).subjectScores) := by
  have hc : (classifyProblem (JsInput.str s)).confidence
      = min 100 (10 * maxScoresList (classifyProblem (JsInput.str s)).subjectScores) := by
    rw [classifyProblem_str h]
    have h1 : (classifySuccess s).confidence
        = min 100 (10 * (pickPrimary (SUBJECT_ORDER.map (fun sub =>
            (sub, subjectScore sub (jsTrim (jsLowerL s.data)) s.data)))).2) := rfl
    rw [h1, pickPrimary_snd]
    rfl
  refine ⟨hc, fun hm => ?_, fun hm => ?_⟩ <;> rw [hc] <;> omega

/-- Witness for C8 at a one-letter input. -/
theorem c8_confidence_formula_witness :
    (classifyProblem (JsInput.str "x")).confidence
      = min 100 (10 * maxScoresList (classifyProblem (JsInput.str "x")).subjectScores) :=
  (c8_confidence_formula "x" (by decide)).1

/-- Length of the expected entry list of an all-string batch. -/
theorem strEntries_length (l : List String) (i : Nat) :
    (strEntries i l).length = l.length := by
  induction l generalizing i with
  | nil => rfl
  | cons s t ih => simp [strEntries, ih (i + 1)]

/-- Entry lookup in the expected entry list of an all-string batch. -/
theorem strEntries_getElem (l : List String) (i k : Nat) :
    (strEntries i l)[k]? = (l[k]?).map (fun s => batchEntry (i + k) s) := by
  induction l generalizing i k with
  | nil => simp [strEntries]
  | cons s t ih =>
    cases k with
    | zero => simp [strEntries]
    | succ k =>
      simp only [strEntries, List.getElem?_cons_succ]
      rw [ih (i + 1) k]
      have hik : i + 1 + k = i + (k + 1) := by omega
      rw [hik]

/-- An all-string batch maps to its expected entry list without throwing. -/
theorem batchMapFrom_str (l : List String) (i : Nat) :
    batchMapFrom i (l.map JsValue.str) = Except.ok (strEntries i l) := by
  induction l generalizing i with
  | nil => rfl
  | cons s t ih => simp [batchMapFrom, batchItem, strEntries, ih (i + 1)]

/-- A batch list containing a non-string entry throws out of the map. -/
theorem batchMapFrom_err (l : List JsValue) (i : Nat)
    (h : ∃ v ∈ l, ∀ s, v ≠ JsValue.str s) :
    ∃ e, batchMapFrom i l = Except.error e := by
  induction l generalizing i with
  | nil => simp at h
  | cons v t ih =>
    cases v with
    | str s =>
      have ht : ∃ w ∈ t, ∀ s2, w ≠ JsValue.str s2 := by
        rcases h with ⟨w, hw, hne⟩
        rcases List.mem_cons.mp hw with rfl | hw2
        · exact absurd rfl (hne s)
        · exact ⟨w, hw2, hne⟩
      rcases ih (i + 1) ht with ⟨e, he⟩
      exact ⟨e, by simp [batchMapFrom, batchItem, he]⟩
    | nullish => exact ⟨_, rfl⟩
    | otherNonString => exact ⟨_, rfl⟩

/-- C9 counterexample: a batch of two string entries whose first entry is
the empty string reports success for both entries, because classifyProblem
never throws on a string: the invalid entry is answered with the fallback
classification and success true, not with a per-entry failure as the claim
states. -/
theorem c9_counterexample :
    batchSuccesses (classifyBatch [JsValue.str "", JsValue.str "x"])
      = [true, true] := by
  decide

/-- C9 amended: for every non-empty batch of at most fifty entries that are
all strings, the batch returns one entry per input in input order with its
position as index, and every entry, the empty string included, is reported
with success true and carries the classifyProblem result (for invalid text
the fallback classification with its error field); no entry is ever
reported with success false: a batch containing any non-string entry
(nullish or otherwise) makes the per-item handler throw, because its catch
clause itself calls substring on the entry, so the exception escapes the
map and the whole batch fails with the route level batch failure error
instead of a per-item failure. -/
theorem c9_amended_batch (l : List String) (h1 : 0 < l.length)
    (h2 : l.length ≤ 50) :
    classifyBatch (l.map JsValue.str) = Except.ok (strEntries 0 l) ∧
    (strEntries 0 l).length = l.length ∧
    (∀ i : Nat, (strEntries 0 l)[i]? = (l[i]?).map (fun s => batchEntry i s)) ∧
    (∀ i : Nat, ∀ s : String, (batchEntry i s).index = i ∧
      (batchEntry i s).success = true ∧
      (batchEntry i s).classification
        = some (classifyProblem (JsInput.str s))) ∧
    (∀ l2 : List JsValue, 0 < l2.length → l2.length ≤ 50 →
      (∃ v ∈ l2, ∀ s, v ≠ JsValue.str s) →
      classifyBatch l2
        = Except.error "Batch classification processing failed") := by
  refine ⟨?_, strEntries_length l 0, ?_, ?_, ?_⟩
  · simp only [classifyBatch, List.length_map]
    rw [if_neg (by omega), if_neg (by omega), batchMapFrom_str]
  · intro i
    have h := strEntries_getElem l 0 i
    rw [Nat.zero_add] at h
    exact h
  · intro i s
    exact ⟨rfl, rfl, rfl⟩
  · intro l2 g1 g2 hex
    rcases batchMapFrom_err l2 0 hex with ⟨e, he⟩
    simp only [classifyBatch]
    rw [if_neg (by omega), if_neg (by omega), he]

/-- Witness for the amended C9 at a one-entry batch. -/
theorem c9_amended_batch_witness :
    classifyBatch (["x"].map JsValue.str) = Except.ok (strEntries 0 ["x"]) :=
  (c9_amended_batch ["x"] (by decide) (by decide)).1

/-- C10: for every non-empty string consisting only of whitespace
characters, classifyProblem does not take the input validation fallback
path: the result carries no error field, all six subject scores are zero,
the primary subject is arithmetic, the confidence is zero, the difficulty is
two, and the grade level is middleSchool. -/
theorem c10_whitespace_only (s : String) (h1 : s ≠ "")
    (h2 : ∀ c ∈ s.data, isJsWs c = true) :
    (classifyProblem (JsInput.str s)).error = none ∧
    (classifyProblem (JsInput.str s)).subjectScores
      = [(Subject.algebra, 0), (Subject.geometry, 0), (Subject.calculus, 0),
         (Subject.trigonometry, 0), (Subject.statistics, 0),
         (Subject.arithmetic, 0)] ∧
    (classifyProblem (JsInput.str s)).primarySubject = Subject.arithmetic ∧
    (classifyProblem (JsInput.str s)).confidence = 0 ∧
    (classifyProblem (JsInput.str s)).difficulty = 2 ∧
    (classifyProblem (JsInput.str s)).gradeLevel.level = "middleSchool" := by
  rw [classifyProblem_str h1]
  have htl : jsTrim (jsLowerL s.data) = [] := by
    apply jsTrim_ws
    intro c hc
    rcases List.mem_map.mp hc with ⟨x, hx, rfl⟩
    rw [jsToLower_ws (h2 x hx)]
    exact h2 x hx
  have hsc : ∀ sub, subjectScore sub (jsTrim (jsLowerL s.data)) s.data = 0 := by
    intro sub
    rw [subjectScore_closed, htl]
    have hsym : jsTest (symbols sub) s.data = false :=
      jsTest_ws (symbols sub) (symbols_mustNonWs sub) h2
    have hpat : (patterns sub).countP (fun p => jsTest p s.data) = 0 := by
      apply List.countP_eq_zero.mpr
      intro p hp
      simp [jsTest_ws p (patterns_mustNonWs sub p hp) h2]
    have hkw : (keywords sub).countP
        (fun kw => hasSub (jsLowerL kw.data) []) = 0 := by
      cases sub <;> decide
    simp [hsym, hkw, hpat]
  have hscores : subjectScoresOf (jsTrim (jsLowerL s.data)) s.data
      = [(Subject.algebra, 0), (Subject.geometry, 0), (Subject.calculus, 0),
         (Subject.trigonometry, 0), (Subject.statistics, 0),
         (Subject.arithmetic, 0)] := by
    simp [subjectScoresOf, SUBJECT_ORDER, hsc]
  have hpick : pickPrimary
      [(Subject.algebra, 0), (Subject.geometry, 0), (Subject.calculus, 0),
       (Subject.trigonometry, 0), (Subject.statistics, 0),
       (Subject.arithmetic, 0)] = (Subject.arithmetic, 0) := by decide
  have hne : s.data ≠ [] := fun hD => h1 (String.ext (hD.trans rfl))
  have hwc : wordCountJs s.data = 2 := wordCountJs_ws hne h2
  have hdiff : assessDifficulty s.data "arithmetic" = 2 := by
    simp only [assessDifficulty]
    rw [foldl_inds]
    have hsum : (complexityIndicators.map (fun ind =>
        if jsTest ind.1 s.data = true then ind.2 else 0)).sum = 0 := by
      apply List.sum_eq_zero
      intro x hx
      rcases List.mem_map.mp hx with ⟨pr, hpr, rfl⟩
      simp [jsTest_ws pr.1 (indicators_mustNonWs pr hpr) h2]
    rw [hsum, hwc]
    norm_num [subjectBaseDifficulty]
  have hadv : advancedMiddleSchool.any (fun p => jsTest p s.data) = false := by
    apply List.any_eq_false.mpr
    intro p hp
    simp [jsTest_ws p (advMS_mustNonWs p hp) h2]
  have hgrade : (detectGradeLevel s.data "arithmetic" 2).level
      = "middleSchool" := by
    have hno1 : ¬(highSchoolSubjects.contains "arithmetic" = true ∨ 7 ≤ 2) := by
      decide
    have hno2 : ¬(advancedMiddleSchool.any (fun p => jsTest p s.data) = true
        ∨ 5 ≤ 2) := by
      simp [hadv]
    simp only [detectGradeLevel, if_neg hno1, if_neg hno2]
  refine ⟨rfl, hscores, ?_, ?_, ?_, ?_⟩
  · show (pickPrimary (subjectScoresOf (jsTrim (jsLowerL s.data)) s.data)).1
      = Subject.arithmetic
    rw [hscores, hpick]
  · show min 100 (10 * (pickPrimary
        (subjectScoresOf (jsTrim (jsLowerL s.data)) s.data)).2) = 0
    rw [hscores, hpick]
    rfl
  · show assessDifficulty s.data (subjectName (pickPrimary
        (subjectScoresOf (jsTrim (jsLowerL s.data)) s.data)).1) = 2
    rw [hscores, hpick]
    exact hdiff
  · show (detectGradeLevel s.data (subjectName (pickPrimary
        (subjectScoresOf (jsTrim (jsLowerL s.data)) s.data)).1)
        (assessDifficulty s.data (subjectName (pickPrimary
          (subjectScoresOf (jsTrim (jsLowerL s.data)) s.data)).1))).level
      = "middleSchool"
    rw [hscores, hpick]
    show (detectGradeLevel s.data "arithmetic"
        (assessDifficulty s.data "arithmetic")).level = "middleSchool"
    rw [hdiff]
    exact hgrade

/-- Witness for C10 at a single space. -/
theorem c10_whitespace_only_witness :
    (classifyProblem (JsInput.str " ")).difficulty = 2 ∧
    (classifyProblem (JsInput.str " ")).gradeLevel.level = "middleSchool" :=
  ⟨(c10_whitespace_only " " (by decide) (by decide)).2.2.2.2.1,
   (c10_whitespace_only " " (by decide) (by decide)).2.2.2.2.2⟩
